import Mathlib

/-!
Verification of the upload endpoint in `src/api/upload-images.js`.

The handler is a Vercel serverless function that accepts multipart file
uploads, forwards each file to the Shopify Admin API as a hand-built
multipart/form-data request, and aggregates the per-file outcomes into a
single HTTP response.

The embedding below models JavaScript strings as lists of characters,
byte buffers as lists of byte values (natural numbers), the outcome of
each outbound `fetch` as an oracle value, and the handler as a pure
function from its inputs (environment, parsed request, per-item boundary
and fetch oracles) to the HTTP response together with the list of
outbound calls it makes.
-/

/-- JavaScript strings, modelled as lists of characters. -/
abbrev Str := List Char

/-- Embeds a Lean string literal as a modelled JavaScript string. -/
def str (s : String) : Str := s.data

/-- The UTF-8 encoding of a modelled string as a list of byte values;
this models `Buffer.from(part, "utf-8")` in the source. -/
def utf8 (s : Str) : List Nat :=
  s.flatMap (fun c => (String.utf8EncodeChar c).map (fun b => b.toNat))

/-- Decimal rendering of a number, as in JavaScript template-literal
interpolation of `response.status`. -/
def natStr (n : Nat) : Str := (toString n).data

/-- A file collected by the busboy `file`/`end` events: filename, the
concatenated chunk buffer, and the declared content type
(`files.push({ filename, buffer, contentType })` in the source). -/
structure NormalizedImage where
  filename : Str
  buffer : List Nat
  contentType : Str
deriving DecidableEq

/-- The nested `file` descriptor of a successful Shopify JSON response:
each field may be absent from the JSON object. -/
structure FileJson where
  url : Option Str
  key : Option Str
  size : Option Nat
deriving DecidableEq

/-- The parsed JSON body of a Shopify response: the `file` key may be
absent. -/
structure PlatformJson where
  file : Option FileJson
deriving DecidableEq

/-- Outcome of `response.json()`: either the parse rejects with a
message, or it yields a parsed body. -/
inductive JsonOutcome where
  | jsonError (message : Str)
  | jsonOk (value : PlatformJson)
deriving DecidableEq

/-- Oracle describing how one outbound `fetch` resolves: either the
fetch itself rejects (network-level exception, with its message), or a
response arrives with a status code, a body text (read by
`response.text()` on the failure path), and a JSON parse outcome. -/
inductive FetchOutcome where
  | netError (message : Str)
  | response (status : Nat) (text : Str) (json : JsonOutcome)
deriving DecidableEq

/-- Per-item result object returned by one iteration of
`files.map(async (file) => ...)`: either `{ success: true, url,
filename, size }` (fields copied from the JSON, hence possibly absent)
or `{ success: false, error }`. -/
inductive UploadResult where
  | success (url : Option Str) (filename : Option Str) (size : Option Nat)
  | failure (error : Str)
deriving DecidableEq

/-- The `success` field of an UploadResult object. -/
def UploadResult.isSuccess : UploadResult → Bool
  | .success _ _ _ => true
  | .failure _ => false

/-- Models `response.ok`: status in the 2xx range. -/
def responseOk (status : Nat) : Bool := 200 ≤ status && status < 300

/-- Message of the TypeError thrown by `result.file.url` when
`result.file` is absent: Cannot read properties of undefined
(reading url), with the quotes around url written via character
code 39. -/
def typeErrorMessage : Str :=
  str "Cannot read properties of undefined (reading " ++ [Char.ofNat 39] ++
    str "url" ++ [Char.ofNat 39] ++ str ")"

/-- The body of the per-item `try` block after the fetch resolves, with
thrown exceptions made explicit as `Except.error` carrying the
exception message: a non-ok response throws the Shopify API error, a
JSON parse rejection propagates its message, and accessing
`result.file.url` on an absent `file` throws a TypeError. -/
def uploadAttempt : FetchOutcome → Except Str UploadResult
  | .netError message => .error message
  | .response status text json =>
    if !responseOk status then
      .error (str "Shopify API error: " ++ natStr status ++ str " - " ++ text)
    else
      match json with
      | .jsonError message => .error message
      | .jsonOk result =>
        match result.file with
        | none => .error typeErrorMessage
        | some f => .ok (.success f.url f.key f.size)

/-- The per-item result after the `catch (error)` clause: an exception
escaping the try block is converted to `{ success: false, error:
error.message }`. -/
def uploadResultOf (outcome : FetchOutcome) : UploadResult :=
  match uploadAttempt outcome with
  | .ok r => r
  | .error message => .failure message

/-- The CRLF constant of the source. -/
def CRLF : Str := str "\r\n"

/-- One entry of the `bodyParts` array: a text part (later UTF-8
encoded) or the raw file buffer. -/
inductive BodyPart where
  | text (s : Str)
  | buffer (b : List Nat)
deriving DecidableEq

/-- The `bodyParts` array pushed by the source, in push order. -/
def bodyParts (boundary : Str) (file : NormalizedImage) : List BodyPart :=
  [ .text (str "--" ++ boundary ++ CRLF),
    .text (str "Content-Disposition: form-data; name=\"file\"; filename=\"" ++
      file.filename ++ str "\"" ++ CRLF),
    .text (str "Content-Type: " ++ file.contentType ++ CRLF ++ CRLF),
    .buffer file.buffer,
    .text (CRLF ++ str "--" ++ boundary ++ str "--" ++ CRLF) ]

/-- Byte content of one body part: text parts are UTF-8 encoded,
buffers pass through (`Buffer.isBuffer(part) ? part :
Buffer.from(part, "utf-8")`). -/
def BodyPart.toBytes : BodyPart → List Nat
  | .text s => utf8 s
  | .buffer b => b

/-- Models `Buffer.concat(bodyParts.map(...))`: the full multipart body. -/
def bodyBuffer (boundary : Str) (file : NormalizedImage) : List Nat :=
  ((bodyParts boundary file).map BodyPart.toBytes).flatten

/-- One outbound POST issued to Shopify: target URL, access token
header, content-type header carrying the boundary, and the body. -/
structure OutboundCall where
  url : Str
  accessToken : Str
  contentTypeHeader : Str
  body : List Nat
deriving DecidableEq

/-- One iteration of `files.map(async (file) => ...)` given the
boundary the generator produced for this item and the fetch outcome:
it issues one outbound call built from the file and yields the result
derived from the fetch outcome. -/
def uploadOne (apiUrlStr accessToken boundary : Str) (outcome : FetchOutcome)
    (file : NormalizedImage) : OutboundCall × UploadResult :=
  (⟨apiUrlStr, accessToken,
      str "multipart/form-data; boundary=" ++ boundary,
      bodyBuffer boundary file⟩,
    uploadResultOf outcome)

/-- Models `await Promise.all(files.map(...))`: the fan-out over all files,
with per-index oracles for the generated boundary and the fetch
outcome. `Promise.all` preserves the order of the mapped array. -/
def fanOut (apiUrlStr accessToken : Str) (bGen : Nat → Str)
    (fetch : Nat → FetchOutcome) (files : List NormalizedImage) :
    List (OutboundCall × UploadResult) :=
  files.mapIdx (fun i file => uploadOne apiUrlStr accessToken (bGen i) (fetch i) file)

/-- A JSON response body; absent keys are `none`. Fields: `message`,
`error`, `results`, `count`, `failedCount`. -/
structure JsonBody where
  message : Option Str
  error : Option Str
  results : Option (List UploadResult)
  count : Option Nat
  failedCount : Option Nat
deriving DecidableEq

/-- An HTTP response produced by the handler: status code, headers set
via `res.setHeader`, and the JSON body (`none` for the empty body of
`res.status(200).end()`). -/
structure HttpResponse where
  status : Nat
  headers : List (Str × Str)
  body : Option JsonBody
deriving DecidableEq

/-- The three CORS headers the handler sets. -/
def corsHeaders : List (Str × Str) :=
  [ (str "Access-Control-Allow-Origin", str "*"),
    (str "Access-Control-Allow-Methods", str "POST, OPTIONS"),
    (str "Access-Control-Allow-Headers", str "Content-Type") ]

/-- The aggregation tail of the `finish` handler: filter the failed
results; if any failed respond 207 with `failedCount`, otherwise 200
with `count`. -/
def aggregateResponse (results : List UploadResult) : HttpResponse :=
  let failedUploads := results.filter (fun r => !r.isSuccess)
  if failedUploads.length > 0 then
    ⟨207, corsHeaders,
      some ⟨some (str "Some uploads failed"), none, some results, none,
        some failedUploads.length⟩⟩
  else
    ⟨200, corsHeaders,
      some ⟨some (str "All images uploaded successfully"), none, some results,
        some results.length, none⟩⟩

/-- The two environment variables read by the handler; `none` models an
unset variable. -/
structure Env where
  SHOPIFY_STORE : Option Str
  SHOPIFY_ACCESS_TOKEN : Option Str

/-- Models `shopifyStore.replace(/^https?:\/\//, "")`: strip one leading
`https://` or `http://`. -/
def stripScheme (s : Str) : Str :=
  if str "https://" <+: s then s.drop 8
  else if str "http://" <+: s then s.drop 7
  else s

/-- Models `.replace(/\/$/, "")`: strip a single trailing slash. -/
def stripTrailingSlash (s : Str) : Str :=
  if str "/" <:+ s then s.dropLast else s

/-- Models `const storeDomain = shopifyStore.replace(...).replace(...)`. -/
def storeDomain (shopifyStore : Str) : Str :=
  stripTrailingSlash (stripScheme shopifyStore)

/-- The outbound target URL built from the configured store value. -/
def apiUrl (shopifyStore : Str) : Str :=
  str "https://" ++ storeDomain shopifyStore ++ str "/admin/api/2024-01/files.json"

/-- Outcome of the busboy parse of the incoming stream: either the
`error` event fires with a message, or `finish` fires with the
collected files in arrival order. -/
inductive ParseOutcome where
  | parseError (message : Str)
  | parsed (files : List NormalizedImage)

/-- An incoming request: its method string and how parsing its body
resolves. -/
structure Request where
  method : Str
  parse : ParseOutcome

/-- The 500 response sent when credentials are missing. -/
def credentialsError : HttpResponse :=
  ⟨500, corsHeaders,
    some ⟨none,
      some (str "Shopify credentials not configured. Please set SHOPIFY_STORE and SHOPIFY_ACCESS_TOKEN environment variables."),
      none, none, none⟩⟩

/-- The POST path after the credential check: a busboy error yields
400, zero files yields 400, otherwise the fan-out runs and its results
are aggregated; the outbound calls made are returned alongside the
response. -/
def handlerPost (shopifyStore shopifyAccessToken : Str) (parse : ParseOutcome)
    (bGen : Nat → Str) (fetch : Nat → FetchOutcome) :
    HttpResponse × List OutboundCall :=
  match parse with
  | .parseError message =>
    (⟨400, corsHeaders,
      some ⟨some message, some (str "Error parsing form data"), none, none, none⟩⟩, [])
  | .parsed files =>
    if files.length = 0 then
      (⟨400, corsHeaders,
        some ⟨none, some (str "No files uploaded"), none, none, none⟩⟩, [])
    else
      let pairs := fanOut (apiUrl shopifyStore) shopifyAccessToken bGen fetch files
      (aggregateResponse (pairs.map Prod.snd), pairs.map Prod.fst)

/-- The whole handler: OPTIONS preflight, method check, credential
check (a JavaScript falsy check, so an unset or empty variable fails
it), then the POST path. Returns the response and the outbound calls
made. -/
def handler (env : Env) (req : Request) (bGen : Nat → Str)
    (fetch : Nat → FetchOutcome) : HttpResponse × List OutboundCall :=
  if req.method = str "OPTIONS" then
    (⟨200, corsHeaders, none⟩, [])
  else if req.method = str "POST" then
    match env.SHOPIFY_STORE, env.SHOPIFY_ACCESS_TOKEN with
    | some shopifyStore, some shopifyAccessToken =>
      if shopifyStore.isEmpty || shopifyAccessToken.isEmpty then
        (credentialsError, [])
      else
        handlerPost shopifyStore shopifyAccessToken req.parse bGen fetch
    | _, _ => (credentialsError, [])
  else
    (⟨405, corsHeaders,
      some ⟨none, some (str "Method not allowed"), none, none, none⟩⟩, [])

/-- A sample boundary value of the shape the generator produces, used
to exhibit boundary occurrence inside a body. -/
def sampleBoundary : Str := str "----WebKitFormBoundaryabc1230"

/-- A sample image whose raw bytes are exactly the UTF-8 bytes of
`sampleBoundary`. -/
def sampleImage : NormalizedImage :=
  ⟨str "a.png", utf8 sampleBoundary, str "image/png"⟩

/-- UTF-8 encoding distributes over string concatenation. -/
theorem utf8_append (a b : Str) : utf8 (a ++ b) = utf8 a ++ utf8 b := by
  simp [utf8]

/-- Claim C1: the fan-out yields exactly one UploadResult per input image and
preserves input order: the results sequence has the same length as the
input list, and the entry at each index is the result produced from the
image at that index with its own boundary and fetch outcome. -/
theorem fanOut_one_result_per_image_in_order (apiUrlStr accessToken : Str)
    (bGen : Nat → Str) (fetch : Nat → FetchOutcome) (files : List NormalizedImage) :
    ((fanOut apiUrlStr accessToken bGen fetch files).map Prod.snd).length = files.length ∧
    ∀ i : Nat,
      ((fanOut apiUrlStr accessToken bGen fetch files).map Prod.snd)[i]? =
        (files[i]?).map (fun file =>
          (uploadOne apiUrlStr accessToken (bGen i) (fetch i) file).snd) := by
  constructor
  · simp [fanOut]
  · intro i
    rw [fanOut, List.getElem?_map, List.getElem?_mapIdx]
    rcases files[i]? with _ | f <;> rfl

/-- Claim C2: the constructed upload body is the byte-exact concatenation of
the UTF-8 delimiter line, the UTF-8 Content-Disposition line, the UTF-8
Content-Type line with its blank line, the raw file bytes unchanged,
and the UTF-8 closing delimiter line. -/
theorem bodyBuffer_byte_exact (boundary : Str) (file : NormalizedImage) :
    bodyBuffer boundary file =
      utf8 (str "--" ++ boundary ++ str "\r\n") ++
      utf8 (str "Content-Disposition: form-data; name=\"file\"; filename=\"" ++
        file.filename ++ str "\"\r\n") ++
      utf8 (str "Content-Type: " ++ file.contentType ++ str "\r\n\r\n") ++
      file.buffer ++
      utf8 (str "\r\n--" ++ boundary ++ str "--\r\n") := by
  simp [bodyBuffer, bodyParts, BodyPart.toBytes, CRLF, utf8, str, List.append_assoc]

/-- Claim C3: the per-item uploader is total and converts every exception
into a Failure record carrying the exception text: an error escaping
the try block becomes `Failure message`, a normal value passes through,
and in particular a network-level fetch rejection becomes a Failure
with the rejection message. -/
theorem uploadResultOf_never_throws (outcome : FetchOutcome) :
    (∀ message, uploadAttempt outcome = Except.error message →
      uploadResultOf outcome = UploadResult.failure message) ∧
    (∀ r, uploadAttempt outcome = Except.ok r → uploadResultOf outcome = r) ∧
    (∀ message, outcome = FetchOutcome.netError message →
      uploadResultOf outcome = UploadResult.failure message) := by
  refine ⟨fun m h => ?_, fun r h => ?_, fun m h => ?_⟩
  · simp [uploadResultOf, h]
  · simp [uploadResultOf, h]
  · subst h; rfl

/-- Witness for C3: a concrete network-level rejection is converted to
a Failure carrying the rejection message. -/
theorem uploadResultOf_never_throws_witness :
    uploadResultOf (FetchOutcome.netError (str "connect ECONNREFUSED")) =
      UploadResult.failure (str "connect ECONNREFUSED") :=
  (uploadResultOf_never_throws (FetchOutcome.netError (str "connect ECONNREFUSED"))).1
    (str "connect ECONNREFUSED") rfl

/-- Claim C4: if every result succeeded the response is 200 with message,
results and count and without a failedCount field; if at least one
result failed the response is 207 with all results and failedCount
equal to the number of failed entries. -/
theorem aggregateResponse_statuses (results : List UploadResult) :
    ((∀ r ∈ results, r.isSuccess = true) →
      aggregateResponse results =
        ⟨200, corsHeaders,
          some ⟨some (str "All images uploaded successfully"), none,
            some results, some results.length, none⟩⟩) ∧
    ((∃ r ∈ results, r.isSuccess = false) →
      aggregateResponse results =
        ⟨207, corsHeaders,
          some ⟨some (str "Some uploads failed"), none, some results, none,
            some (results.countP (fun r => !r.isSuccess))⟩⟩) := by
  constructor
  · intro h
    have hnil : results.filter (fun r => !r.isSuccess) = [] := by
      rw [List.filter_eq_nil_iff]
      intro r hr
      simp [h r hr]
    simp [aggregateResponse, hnil]
  · intro h
    obtain ⟨r, hr, hfail⟩ := h
    have hpos : 0 < (results.filter (fun r => !r.isSuccess)).length := by
      apply List.length_pos_of_mem (a := r)
      simp [List.mem_filter, hr, hfail]
    rw [List.countP_eq_length_filter]
    simp [aggregateResponse, hpos, Nat.pos_iff_ne_zero.mp hpos]

/-- Witness for C4: a singleton all-success list yields 200 with count
and no failedCount, and a mixed list yields 207 with failedCount one. -/
theorem aggregateResponse_statuses_witness :
    aggregateResponse [UploadResult.success none none none] =
      ⟨200, corsHeaders,
        some ⟨some (str "All images uploaded successfully"), none,
          some [UploadResult.success none none none], some 1, none⟩⟩ ∧
    aggregateResponse [UploadResult.success none none none,
        UploadResult.failure (str "boom")] =
      ⟨207, corsHeaders,
        some ⟨some (str "Some uploads failed"), none,
          some [UploadResult.success none none none,
            UploadResult.failure (str "boom")], none, some 1⟩⟩ := by
  constructor
  · have h := (aggregateResponse_statuses [UploadResult.success none none none]).1
      (by decide)
    rw [h]
    rfl
  · have h := (aggregateResponse_statuses [UploadResult.success none none none,
      UploadResult.failure (str "boom")]).2
      ⟨UploadResult.failure (str "boom"), by decide, by decide⟩
    rw [h]
    decide

/-- Claim C5: a POST request with configured credentials whose multipart
stream yields zero file parts is answered 400 with an error message and
no outbound call is made. -/
theorem handler_zero_files (env : Env) (store token : Str)
    (bGen : Nat → Str) (fetch : Nat → FetchOutcome)
    (hs : env.SHOPIFY_STORE = some store)
    (ht : env.SHOPIFY_ACCESS_TOKEN = some token)
    (hs0 : store.isEmpty = false) (ht0 : token.isEmpty = false) :
    handler env ⟨str "POST", ParseOutcome.parsed []⟩ bGen fetch =
      (⟨400, corsHeaders,
        some ⟨none, some (str "No files uploaded"), none, none, none⟩⟩, []) := by
  simp [handler, hs, ht, hs0, ht0, handlerPost, str]

/-- Witness for C5 at a concrete environment. -/
theorem handler_zero_files_witness :
    handler ⟨some (str "shop.example.com"), some (str "token0")⟩
      ⟨str "POST", ParseOutcome.parsed []⟩ (fun _ => []) (fun _ => FetchOutcome.netError []) =
      (⟨400, corsHeaders,
        some ⟨none, some (str "No files uploaded"), none, none, none⟩⟩, []) :=
  handler_zero_files _ (str "shop.example.com") (str "token0") _ _ rfl rfl
    (by decide) (by decide)

/-- Claim C6: on a POST request with either credential environment variable
absent, the handler answers 500 with the descriptive credentials error
and makes no outbound call. -/
theorem handler_missing_credentials (env : Env) (parse : ParseOutcome)
    (bGen : Nat → Str) (fetch : Nat → FetchOutcome)
    (h : env.SHOPIFY_STORE = none ∨ env.SHOPIFY_ACCESS_TOKEN = none) :
    handler env ⟨str "POST", parse⟩ bGen fetch =
      (⟨500, corsHeaders,
        some ⟨none,
          some (str "Shopify credentials not configured. Please set SHOPIFY_STORE and SHOPIFY_ACCESS_TOKEN environment variables."),
          none, none, none⟩⟩, []) := by
  obtain ⟨s, t⟩ := env
  rcases h with h | h <;> subst h
  · simp [handler, str, credentialsError]
  · rcases s with _ | s <;> simp [handler, str, credentialsError]

/-- Witness for C6 at a concrete environment missing the store
variable. -/
theorem handler_missing_credentials_witness :
    handler ⟨none, some (str "token0")⟩ ⟨str "POST", ParseOutcome.parsed []⟩
      (fun _ => []) (fun _ => FetchOutcome.netError []) =
      (⟨500, corsHeaders,
        some ⟨none,
          some (str "Shopify credentials not configured. Please set SHOPIFY_STORE and SHOPIFY_ACCESS_TOKEN environment variables."),
          none, none, none⟩⟩, []) :=
  handler_missing_credentials _ _ _ _ (Or.inl rfl)

/-- Counterexample to C7: a 2xx response whose JSON carries a file
object with none of the expected url, key and size fields yields a
success record with absent fields, not the Failure with message
"malformed platform response" the claim requires. -/
theorem uploadResultOf_missing_fields_counterexample :
    uploadResultOf (FetchOutcome.response 200 []
        (JsonOutcome.jsonOk ⟨some ⟨none, none, none⟩⟩)) =
      UploadResult.success none none none ∧
    uploadResultOf (FetchOutcome.response 200 []
        (JsonOutcome.jsonOk ⟨some ⟨none, none, none⟩⟩)) ≠
      UploadResult.failure (str "malformed platform response") := by
  decide

/-- Claim C7 as amended: on a 2xx response, if the JSON has the nested file
object the result is a success built from its url, key and size fields,
passed through even when absent; if the JSON lacks the file object the
field access throws and the catch yields a Failure carrying the
TypeError text; the message "malformed platform response" is never
produced. -/
theorem uploadResultOf_2xx (status : Nat) (text : Str) (pj : PlatformJson)
    (h1 : 200 ≤ status) (h2 : status < 300) :
    (∀ f, pj.file = some f →
      uploadResultOf (FetchOutcome.response status text (JsonOutcome.jsonOk pj)) =
        UploadResult.success f.url f.key f.size) ∧
    (pj.file = none →
      uploadResultOf (FetchOutcome.response status text (JsonOutcome.jsonOk pj)) =
        UploadResult.failure typeErrorMessage) ∧
    uploadResultOf (FetchOutcome.response status text (JsonOutcome.jsonOk pj)) ≠
      UploadResult.failure (str "malformed platform response") := by
  have hok : responseOk status = true := by
    simp [responseOk, h1, h2]
  refine ⟨fun f hf => ?_, fun hf => ?_, ?_⟩
  · simp [uploadResultOf, uploadAttempt, hok, hf]
  · simp [uploadResultOf, uploadAttempt, hok, hf]
  · rcases hpj : pj.file with _ | f
    · simp [uploadResultOf, uploadAttempt, hok, hpj]
      decide
    · simp [uploadResultOf, uploadAttempt, hok, hpj]

/-- Witness for C7 as amended: a concrete 201 response lacking the file
object yields the TypeError Failure. -/
theorem uploadResultOf_2xx_witness :
    uploadResultOf (FetchOutcome.response 201 [] (JsonOutcome.jsonOk ⟨none⟩)) =
      UploadResult.failure typeErrorMessage :=
  (uploadResultOf_2xx 201 [] ⟨none⟩ (by decide) (by decide)).2.1 rfl

/-- Claim C8: an OPTIONS request is answered 200 with the three CORS headers,
an empty body and no outbound call, for every environment, including an
unconfigured one. -/
theorem handler_options_preflight (env : Env) (req : Request)
    (bGen : Nat → Str) (fetch : Nat → FetchOutcome)
    (hm : req.method = str "OPTIONS") :
    handler env req bGen fetch =
      (⟨200,
        [ (str "Access-Control-Allow-Origin", str "*"),
          (str "Access-Control-Allow-Methods", str "POST, OPTIONS"),
          (str "Access-Control-Allow-Headers", str "Content-Type") ],
        none⟩, []) := by
  simp [handler, hm, corsHeaders]

/-- Witness for C8 at a concrete request with no configuration. -/
theorem handler_options_preflight_witness :
    handler ⟨none, none⟩ ⟨str "OPTIONS", ParseOutcome.parsed []⟩
      (fun _ => []) (fun _ => FetchOutcome.netError []) =
      (⟨200,
        [ (str "Access-Control-Allow-Origin", str "*"),
          (str "Access-Control-Allow-Methods", str "POST, OPTIONS"),
          (str "Access-Control-Allow-Headers", str "Content-Type") ],
        none⟩, []) :=
  handler_options_preflight _ _ _ _ rfl

/-- Counterexample to C9: for a concrete boundary of the generated
shape and a file whose raw bytes are exactly the boundary bytes, the
boundary occurs verbatim inside the raw file bytes and hence inside the
encoded multipart body. -/
theorem boundary_in_body_counterexample :
    sampleImage.buffer = utf8 sampleBoundary ∧
    (utf8 sampleBoundary <:+: bodyBuffer sampleBoundary sampleImage) := by
  constructor
  · rfl
  · refine ⟨utf8 (str "--" ++ sampleBoundary ++ CRLF) ++
      utf8 (str "Content-Disposition: form-data; name=\"file\"; filename=\"" ++
        sampleImage.filename ++ str "\"" ++ CRLF) ++
      utf8 (str "Content-Type: " ++ sampleImage.contentType ++ CRLF ++ CRLF),
      utf8 (CRLF ++ str "--" ++ sampleBoundary ++ str "--" ++ CRLF), ?_⟩
    simp [bodyBuffer, bodyParts, BodyPart.toBytes, sampleImage, List.append_assoc]

/-- Claim C9 as amended: the code does not keep the boundary out of the
encoded body; the boundary always occurs verbatim inside it as part of
the delimiter lines, and the raw file bytes appear in it as one
contiguous segment, so nothing prevents a boundary occurrence inside
the file bytes either. -/
theorem boundary_occurs_in_bodyBuffer (boundary : Str) (file : NormalizedImage) :
    (utf8 boundary <:+: bodyBuffer boundary file) ∧
    (file.buffer <:+: bodyBuffer boundary file) := by
  constructor
  · refine ⟨utf8 (str "--"),
      utf8 CRLF ++
      utf8 (str "Content-Disposition: form-data; name=\"file\"; filename=\"" ++
        file.filename ++ str "\"" ++ CRLF) ++
      utf8 (str "Content-Type: " ++ file.contentType ++ CRLF ++ CRLF) ++
      file.buffer ++
      utf8 (CRLF ++ str "--" ++ boundary ++ str "--" ++ CRLF), ?_⟩
    simp [bodyBuffer, bodyParts, BodyPart.toBytes, utf8_append, List.append_assoc]
  · refine ⟨utf8 (str "--" ++ boundary ++ CRLF) ++
      utf8 (str "Content-Disposition: form-data; name=\"file\"; filename=\"" ++
        file.filename ++ str "\"" ++ CRLF) ++
      utf8 (str "Content-Type: " ++ file.contentType ++ CRLF ++ CRLF),
      utf8 (CRLF ++ str "--" ++ boundary ++ str "--" ++ CRLF), ?_⟩
    simp [bodyBuffer, bodyParts, BodyPart.toBytes, List.append_assoc]

/-- The eight-character scheme is never a prefix of a string starting
with the seven-character one: the characters at index four differ. -/
theorem not_https_of_http (d : Str) : ¬ (str "https://" <+: str "http://" ++ d) := by
  intro h
  rw [List.prefix_iff_eq_take] at h
  have h4 := congrArg (fun l => l[4]?) h
  simp [str, List.getElem?_take_of_lt] at h4

/-- Appending a slash to a string cannot create a prefix ending past a
slash-final position unless the string already had that prefix or ended
in a slash. -/
theorem not_prefix_of_append_slash (p d : Str) (h1 : ¬ (p <+: d))
    (h3 : ¬ (str "/" <:+ d)) (hp : str "/" <:+ p.dropLast) :
    ¬ (p <+: d ++ str "/") := by
  intro h
  obtain ⟨t, ht⟩ := h
  rcases List.eq_nil_or_concat t with rfl | ⟨t', a, rfl⟩
  · rw [List.append_nil] at ht
    apply h3
    have hd : p.dropLast = d := by
      rw [ht]
      exact List.dropLast_concat ..
    rwa [hd] at hp
  · apply h1
    rw [List.concat_eq_append, ← List.append_assoc] at ht
    have hdl := congrArg List.dropLast ht
    rw [List.dropLast_concat] at hdl
    have hd : (d ++ str "/").dropLast = d := List.dropLast_concat ..
    rw [hd] at hdl
    exact ⟨t', hdl⟩

/-- Claim C10: the handler strips one leading scheme and a single trailing
slash from the configured store value before embedding it in the
outbound URL, so for a bare domain the same URL results whether or not
a scheme or trailing slash is configured. -/
theorem apiUrl_strips_scheme_and_slash (d : Str)
    (h1 : ¬ (str "https://" <+: d)) (h2 : ¬ (str "http://" <+: d))
    (h3 : ¬ (str "/" <:+ d)) :
    apiUrl d = str "https://" ++ d ++ str "/admin/api/2024-01/files.json" ∧
    apiUrl (str "https://" ++ d) = apiUrl d ∧
    apiUrl (str "http://" ++ d) = apiUrl d ∧
    apiUrl (d ++ str "/") = apiUrl d ∧
    apiUrl (str "https://" ++ d ++ str "/") = apiUrl d := by
  have len8 : (str "https://").length = 8 := rfl
  have len7 : (str "http://").length = 7 := rfl
  have sd0 : storeDomain d = d := by
    simp only [storeDomain, stripScheme, stripTrailingSlash]
    rw [if_neg h1, if_neg h2, if_neg h3]
  have sd1 : storeDomain (str "https://" ++ d) = d := by
    simp only [storeDomain, stripScheme, stripTrailingSlash]
    rw [if_pos (List.prefix_append _ _), ← len8, List.drop_left, if_neg h3]
  have sd2 : storeDomain (str "http://" ++ d) = d := by
    simp only [storeDomain, stripScheme, stripTrailingSlash]
    rw [if_neg (not_https_of_http d), if_pos (List.prefix_append _ _), ← len7,
      List.drop_left, if_neg h3]
  have sd3 : storeDomain (d ++ str "/") = d := by
    simp only [storeDomain, stripScheme, stripTrailingSlash]
    rw [if_neg (not_prefix_of_append_slash (str "https://") d h1 h3 (by decide)),
      if_neg (not_prefix_of_append_slash (str "http://") d h2 h3 (by decide)),
      if_pos (List.suffix_append _ _)]
    exact List.dropLast_concat ..
  have sd4 : storeDomain (str "https://" ++ (d ++ str "/")) = d := by
    simp only [storeDomain, stripScheme, stripTrailingSlash]
    rw [if_pos (List.prefix_append _ _), ← len8, List.drop_left,
      if_pos (List.suffix_append _ _)]
    exact List.dropLast_concat ..
  refine ⟨?_, ?_, ?_, ?_, ?_⟩ <;> simp [apiUrl, sd0, sd1, sd2, sd3, sd4]

/-- Witness for C10 at a concrete domain: configuring the store with a
scheme and a trailing slash yields the same outbound URL as the bare
domain. -/
theorem apiUrl_strips_scheme_and_slash_witness :
    apiUrl (str "https://shop.example.com/") = apiUrl (str "shop.example.com") := by
  have h := (apiUrl_strips_scheme_and_slash (str "shop.example.com")
    (by decide) (by decide) (by decide)).2.2.2.2
  have e : str "https://" ++ str "shop.example.com" ++ str "/" =
      str "https://shop.example.com/" := by decide
  rwa [e] at h
